import Mathlib

/-!
Shallow embedding of `src/ai_server/server.py` (the evercash AI server).

The server has two request handlers:

* `classify` (`POST /ai/hf-classify`): trims the input text, optionally
  rewrites it through a fixed template when the `type` field is recognized,
  tokenizes, runs a BERT forward pass, softmaxes the logits, takes the
  argmax as `label_id`, the probability at that index as `score`, and
  resolves `label_name` from the model's `id2label` mapping with a
  `LABEL_<id>` fallback.

* `fina_categorize` (`POST /ai/fina-categorize`): resolves the model
  version, mapping flag, api key and partner id (Python `or`-style falsy
  fallbacks), builds five outbound headers, shapes the payload depending on
  the model version, POSTs to the upstream API, and translates the upstream
  response into either a structured error or a success wrapper.

Pure fragments of the Python code are embedded as Lean functions below.
Python `Optional[T]` values are `Option T`; at the wire level a field that
may be omitted, explicitly `null`, or given a value is `Option (Option T)`
(`none` = omitted, `some none` = explicit `null`). Python floats in item
amounts are modelled as rationals; the model's logits and softmax are
modelled over the reals.
-/

namespace AiServer

/-! ### Remote categorization proxy: data model (server.py lines 61-77) -/

/-- Constant `FINA_API_KEY_DEFAULT` (server.py line 63). -/
def FINA_API_KEY_DEFAULT : String := "fina-api-test"

/-- Constant `FINA_PARTNER_ID_DEFAULT` (server.py line 64). -/
def FINA_PARTNER_ID_DEFAULT : String := "f-j1fvmjmj"

/-- A parsed `FinaItem` (server.py lines 66-69): pydantic model with
`name : str`, `merchant : Optional[str] = ""`, `amount : Optional[float] = 0`.
After parsing, `merchant`/`amount` are `none` exactly when the caller sent an
explicit `null`. -/
structure FinaItem where
  name : String
  merchant : Option String
  amount : Option ℚ
deriving DecidableEq

/-- A wire-level item as it appears in the request JSON, before pydantic
applies the field defaults: each optional field is omitted (`none`),
explicitly null (`some none`), or a value (`some (some v)`). -/
structure FinaItemInput where
  name : String
  merchant : Option (Option String)
  amount : Option (Option ℚ)

/-- Pydantic parsing of one item: an omitted `merchant` takes the declared
default `""`, an omitted `amount` takes the declared default `0`; explicit
nulls and explicit values pass through (server.py lines 66-69). -/
def parseFinaItem (i : FinaItemInput) : FinaItem :=
  { name := i.name
  , merchant := i.merchant.getD (some "")
  , amount := i.amount.getD (some 0) }

/-- A parsed `FinaRequest` (server.py lines 71-76): pydantic model with
`items : List[FinaItem]`, `model : Optional[str] = "v3"`,
`mapping : Optional[bool] = True`, `api_key : Optional[str] = None`,
`partner_id : Optional[str] = None`. -/
structure FinaRequest where
  items : List FinaItem
  model : Option String
  mapping : Option Bool
  api_key : Option String
  partner_id : Option String

/-- A wire-level categorization request, before pydantic applies the field
defaults (`none` = field omitted, `some none` = explicit null). -/
structure FinaRequestInput where
  items : List FinaItemInput
  model : Option (Option String)
  mapping : Option (Option Bool)
  api_key : Option (Option String)
  partner_id : Option (Option String)

/-- Pydantic parsing of the request body: omitted `model` defaults to
`"v3"`, omitted `mapping` defaults to `True`, omitted `api_key` and
`partner_id` default to `None`; explicit nulls become `none`
(server.py lines 71-76). -/
def parseFinaRequest (i : FinaRequestInput) : FinaRequest :=
  { items := i.items.map parseFinaItem
  , model := i.model.getD (some "v3")
  , mapping := i.mapping.getD (some true)
  , api_key := i.api_key.getD none
  , partner_id := i.partner_id.getD none }

/-! ### Remote categorization proxy: handler logic (server.py lines 78-102) -/

/-- Python `x or default` on an optional string: the default is taken when
`x` is `None` or any falsy string, i.e. the empty string. -/
def pyOrStr (x : Option String) (default : String) : String :=
  match x with
  | none => default
  | some s => if s = "" then default else s

/-- Line 80: `model = req.model or "v3"`. -/
def resolveModel (req : FinaRequest) : String :=
  pyOrStr req.model "v3"

/-- Line 81: `mapping = "true" if (req.mapping is None or req.mapping) else "false"`. -/
def resolveMapping (req : FinaRequest) : String :=
  match req.mapping with
  | none => "true"
  | some b => if b then "true" else "false"

/-- Line 82: `api_key = req.api_key or FINA_API_KEY_DEFAULT`. -/
def resolveApiKey (req : FinaRequest) : String :=
  pyOrStr req.api_key FINA_API_KEY_DEFAULT

/-- Line 83: `partner_id = req.partner_id or FINA_PARTNER_ID_DEFAULT`. -/
def resolvePartnerId (req : FinaRequest) : String :=
  pyOrStr req.partner_id FINA_PARTNER_ID_DEFAULT

/-- The outbound headers dict (server.py lines 84-90), in insertion order. -/
def buildHeaders (req : FinaRequest) : List (String × String) :=
  [ ("Content-Type", "application/json")
  , ("x-api-key", resolveApiKey req)
  , ("x-partner-id", resolvePartnerId req)
  , ("x-api-model", resolveModel req)
  , ("x-api-mapping", resolveMapping req) ]

/-- The outbound JSON payload: either a bare list of name strings (model
`"v1"`) or a list of full dumped item objects. -/
inductive FinaPayload where
  | names (l : List String)
  | items (l : List FinaItem)
deriving DecidableEq

/-- Lines 91-94: `payload = [it.name for it in req.items]` when the resolved
model is `"v1"`, else `payload = [it.model_dump() for it in req.items]`. -/
def buildPayload (req : FinaRequest) : FinaPayload :=
  if resolveModel req = "v1" then
    FinaPayload.names (req.items.map FinaItem.name)
  else
    FinaPayload.items req.items

/-- A JSON value, as produced by `requests.Response.json()`. -/
inductive Json where
  | null
  | bool (b : Bool)
  | num (q : ℚ)
  | str (s : String)
  | arr (l : List Json)
  | obj (l : List (String × Json))

/-- The upstream HTTP response as seen by the handler: a status code and the
raw body text (`r.status_code`, `r.text`). -/
structure HttpResponse where
  status_code : Nat
  text : String

/-- The `categories` field of a successful result: parsed JSON when
`r.json()` succeeds, otherwise the raw body text. -/
inductive Categories where
  | json (j : Json)
  | text (t : String)

/-- The body returned by `fina_categorize`: either
`{"status": code, "error": text}` or `{"status": code, "categories": data}`. -/
inductive FinaResult where
  | error (status : Nat) (error : String)
  | success (status : Nat) (categories : Categories)

/-- Lines 95-102 of server.py: response translation. `parse` stands for the
`requests` library's `r.json()` body parser (`none` models a parse
exception). If the upstream status is `>= 400` the handler returns
`{"status": r.status_code, "error": r.text}` without touching the body
parser; otherwise it returns `{"status": 200, "categories": data}` where
`data` is the parsed JSON or, on a parse failure, the raw text. -/
def handleResponse (parse : String → Option Json) (r : HttpResponse) : FinaResult :=
  if 400 ≤ r.status_code then
    FinaResult.error r.status_code r.text
  else
    match parse r.text with
    | some j => FinaResult.success 200 (Categories.json j)
    | none => FinaResult.success 200 (Categories.text r.text)

/-! ### Local classifier: data model and pure logic (server.py lines 27-59) -/

/-- `ClassifyRequest` (server.py lines 27-29): pydantic model with
`text : str` and `type : Optional[str] = None`. -/
structure ClassifyRequest where
  text : String
  type : Option String

/-- Python `str.strip()`: drop leading and trailing whitespace characters. -/
def pyStrip (s : String) : String :=
  String.mk (List.reverse (List.dropWhile Char.isWhitespace
    (List.reverse (List.dropWhile Char.isWhitespace s.data))))

/-- Lines 38-40 of `classify`: `text = item.text.strip()`, then if
`item.type in ("income", "expense", "expenses")` the text is rewritten to
the f-string template `Transaction: <text> - Type: <item.type>`. -/
def prepareText (item : ClassifyRequest) : String :=
  let text := pyStrip item.text
  match item.type with
  | some t =>
      if t = "income" ∨ t = "expense" ∨ t = "expenses" then
        "Transaction: " ++ text ++ " - Type: " ++ t
      else text
  | none => text

/-- The Python expression `model.config.id2label.get(label_id)` on lines
50-52: the configured mapping is absent (`hasattr` false or not a dict:
outer `none`), or a finite map whose stored values may themselves be Python
`None` (inner `Option`). A missing key and a stored `None` both yield
Python `None`, i.e. `none`. -/
def lookupId2Label (id2label : Option (List (Nat × Option String))) (label_id : Nat) :
    Option String :=
  match id2label with
  | none => none
  | some m => (m.lookup label_id).getD none

/-- Lines 50-54 of `classify`: look up the predicted id in `id2label`; the
fallback `if not label_name: label_name = f"LABEL_<label_id>"` fires on any
falsy looked-up value, i.e. on Python `None` and on the empty string. -/
def resolveLabelName (id2label : Option (List (Nat × Option String))) (label_id : Nat) :
    String :=
  match lookupId2Label id2label label_id with
  | some s => if s = "" then "LABEL_" ++ toString label_id else s
  | none => "LABEL_" ++ toString label_id

/-- Line 45: `probs = torch.softmax(logits, dim=-1)` for a logits row of
width `n`, modelled over the reals. -/
noncomputable def softmax {n : ℕ} (logits : Fin n → ℝ) : Fin n → ℝ :=
  fun i => Real.exp (logits i) / ∑ j, Real.exp (logits j)

/-- Line 46: `torch.argmax(probs, dim=-1)` — an index attaining the maximum
of `f` over the (nonempty) label axis. -/
noncomputable def argmaxFin {n : ℕ} (f : Fin (n + 1) → ℝ) : Fin (n + 1) :=
  (Finset.univ.exists_max_image f ⟨0, Finset.mem_univ 0⟩).choose

/-- The pure numeric core of lines 45-48: softmax the logits, take the
argmax as `label_id` and the probability at that index as `score`. -/
noncomputable def classifyLogits {n : ℕ} (logits : Fin (n + 1) → ℝ) : Fin (n + 1) × ℝ :=
  (argmaxFin (softmax logits), softmax logits (argmaxFin (softmax logits)))

/-! ### Helper lemmas -/

lemma argmaxFin_le {n : ℕ} (f : Fin (n + 1) → ℝ) (j : Fin (n + 1)) :
    f j ≤ f (argmaxFin f) :=
  (Finset.univ.exists_max_image f ⟨0, Finset.mem_univ 0⟩).choose_spec.2 j (Finset.mem_univ j)

lemma expSum_pos {n : ℕ} (logits : Fin (n + 1) → ℝ) :
    0 < ∑ j, Real.exp (logits j) :=
  Finset.sum_pos (fun j _ => Real.exp_pos (logits j)) ⟨0, Finset.mem_univ 0⟩

lemma softmax_nonneg {n : ℕ} (logits : Fin (n + 1) → ℝ) (i : Fin (n + 1)) :
    0 ≤ softmax logits i :=
  div_nonneg (Real.exp_nonneg (logits i)) (le_of_lt (expSum_pos logits))

lemma softmax_le_one {n : ℕ} (logits : Fin (n + 1) → ℝ) (i : Fin (n + 1)) :
    softmax logits i ≤ 1 := by
  simp only [softmax]
  rw [div_le_one (expSum_pos logits)]
  exact Finset.single_le_sum (fun j _ => Real.exp_nonneg (logits j)) (Finset.mem_univ i)

lemma softmax_sum_eq_one {n : ℕ} (logits : Fin (n + 1) → ℝ) :
    ∑ i, softmax logits i = 1 := by
  simp only [softmax]
  rw [← Finset.sum_div]
  exact div_self (ne_of_gt (expSum_pos logits))

/-! ### Claim theorems -/

/-- C1: for every categorization request, when the resolved model version is
`"v1"` the outbound payload is exactly the ordered list of the items' `name`
fields; for any other resolved model it is the ordered list of full item
objects, in which an omitted `merchant` has become `""` and an omitted
`amount` has become `0`. -/
theorem fina_payload_shape (i : FinaRequestInput) :
    (resolveModel (parseFinaRequest i) = "v1" →
      buildPayload (parseFinaRequest i) = FinaPayload.names (i.items.map FinaItemInput.name)) ∧
    (resolveModel (parseFinaRequest i) ≠ "v1" →
      buildPayload (parseFinaRequest i) = FinaPayload.items (i.items.map parseFinaItem) ∧
      ∀ it ∈ i.items,
        (it.merchant = none → (parseFinaItem it).merchant = some "") ∧
        (it.amount = none → (parseFinaItem it).amount = some 0)) := by
  constructor
  · intro h
    unfold buildPayload
    rw [if_pos h]
    show FinaPayload.names ((i.items.map parseFinaItem).map FinaItem.name) = _
    rw [List.map_map]
    rfl
  · intro h
    refine ⟨?_, ?_⟩
    · unfold buildPayload
      rw [if_neg h]
      rfl
    · intro it _
      exact ⟨fun hm => by simp [parseFinaItem, hm], fun ha => by simp [parseFinaItem, ha]⟩

/-- Witness for C1 at concrete requests: model `"v1"` yields bare names,
default model `"v3"` yields full items with defaulted fields. -/
theorem fina_payload_shape_witness :
    buildPayload (parseFinaRequest ⟨[⟨"coffee", none, none⟩], some (some "v1"), none, none, none⟩) =
      FinaPayload.names ["coffee"] ∧
    buildPayload (parseFinaRequest ⟨[⟨"coffee", none, none⟩], none, none, none, none⟩) =
      FinaPayload.items [⟨"coffee", some "", some 0⟩] :=
  ⟨(fina_payload_shape ⟨[⟨"coffee", none, none⟩], some (some "v1"), none, none, none⟩).1
      (by decide),
   ((fina_payload_shape ⟨[⟨"coffee", none, none⟩], none, none, none, none⟩).2 (by decide)).1⟩

/-- C2: for every upstream response with status >= 400, the handler returns
the structured error value carrying the upstream status code and the raw
body text; the result does not depend on the body parser at all (so the
body is never parsed as JSON), and the error constructor carries no
`categories` field. -/
theorem fina_upstream_error (parse : String → Option Json) (r : HttpResponse)
    (h : 400 ≤ r.status_code) :
    handleResponse parse r = FinaResult.error r.status_code r.text ∧
    (∀ q : String → Option Json, handleResponse parse r = handleResponse q r) := by
  refine ⟨by simp [handleResponse, if_pos h], fun q => by simp [handleResponse, if_pos h]⟩

/-- Witness for C2: a mocked upstream 404 with body `"not found"` yields
exactly the error value with status 404 and that body. -/
theorem fina_upstream_error_witness :
    handleResponse (fun _ => none) ⟨404, "not found"⟩ = FinaResult.error 404 "not found" :=
  (fina_upstream_error (fun _ => none) ⟨404, "not found"⟩ (by decide)).1

/-- C3: for every upstream response with status < 400, the handler returns
the success wrapper whose `status` field is hardcoded to 200 (whatever the
actual upstream code, e.g. 201 or 204), with `categories` the JSON-parsed
body when parsing succeeds and the raw body text when it fails. -/
theorem fina_upstream_success (parse : String → Option Json) (r : HttpResponse)
    (h : r.status_code < 400) :
    (∀ j, parse r.text = some j →
      handleResponse parse r = FinaResult.success 200 (Categories.json j)) ∧
    (parse r.text = none →
      handleResponse parse r = FinaResult.success 200 (Categories.text r.text)) := by
  have hn : ¬ 400 ≤ r.status_code := not_le.mpr h
  exact ⟨fun j hj => by simp [handleResponse, if_neg hn, hj],
         fun hj => by simp [handleResponse, if_neg hn, hj]⟩

/-- Witness for C3: upstream 201 with a parseable body yields status 200
with the parsed JSON; upstream 204 with a non-JSON body yields status 200
with the raw text. -/
theorem fina_upstream_success_witness :
    handleResponse (fun _ => some (Json.arr [])) ⟨201, "[]"⟩ =
      FinaResult.success 200 (Categories.json (Json.arr [])) ∧
    handleResponse (fun _ => none) ⟨204, "plain text"⟩ =
      FinaResult.success 200 (Categories.text "plain text") :=
  ⟨(fina_upstream_success (fun _ => some (Json.arr [])) ⟨201, "[]"⟩ (by decide)).1
      (Json.arr []) rfl,
   (fina_upstream_success (fun _ => none) ⟨204, "plain text"⟩ (by decide)).2 rfl⟩

/-- C7: for every categorization request, an omitted `mapping` flag defaults
to true and serializes in the `x-api-mapping` header as the string `"true"`,
an explicit false serializes as `"false"`, and the outbound headers are
exactly the JSON content type plus the four custom headers carrying the
resolved api key, partner id, model version and mapping flag as strings. -/
theorem fina_headers_and_mapping (i : FinaRequestInput) :
    (i.mapping = none → resolveMapping (parseFinaRequest i) = "true") ∧
    ((parseFinaRequest i).mapping = some false →
      resolveMapping (parseFinaRequest i) = "false") ∧
    (buildHeaders (parseFinaRequest i)).map Prod.fst =
      ["Content-Type", "x-api-key", "x-partner-id", "x-api-model", "x-api-mapping"] ∧
    (buildHeaders (parseFinaRequest i)).lookup "Content-Type" = some "application/json" ∧
    (buildHeaders (parseFinaRequest i)).lookup "x-api-key" =
      some (resolveApiKey (parseFinaRequest i)) ∧
    (buildHeaders (parseFinaRequest i)).lookup "x-partner-id" =
      some (resolvePartnerId (parseFinaRequest i)) ∧
    (buildHeaders (parseFinaRequest i)).lookup "x-api-model" =
      some (resolveModel (parseFinaRequest i)) ∧
    (buildHeaders (parseFinaRequest i)).lookup "x-api-mapping" =
      some (resolveMapping (parseFinaRequest i)) := by
  refine ⟨fun h => ?_, fun h => ?_, ?_, ?_, ?_, ?_, ?_, ?_⟩
  · simp [resolveMapping, parseFinaRequest, h]
  · simp [resolveMapping, h]
  all_goals simp [buildHeaders, List.lookup]

/-- Witness for C7: the omitted-mapping default serializes as `"true"`, an
explicit false as `"false"`, and the `x-api-mapping` lookup agrees. -/
theorem fina_headers_and_mapping_witness :
    resolveMapping (parseFinaRequest ⟨[], none, none, none, none⟩) = "true" ∧
    resolveMapping (parseFinaRequest ⟨[], none, some (some false), none, none⟩) = "false" :=
  ⟨(fina_headers_and_mapping ⟨[], none, none, none, none⟩).1 rfl,
   (fina_headers_and_mapping ⟨[], none, some (some false), none, none⟩).2.1 rfl⟩

/-- C8 as stated is false on the code: an api key supplied as the empty
string is "supplied", yet the resolved header value is the fixed default
constant, not the caller's value (Python `or` treats `""` as falsy). -/
theorem fina_credentials_counterexample :
    resolveApiKey (parseFinaRequest ⟨[], none, none, some (some ""), none⟩) = "fina-api-test" ∧
    resolveApiKey (parseFinaRequest ⟨[], none, none, some (some ""), none⟩) ≠ "" := by
  decide

/-- C8 (amended): when `api_key` or `partner_id` is not supplied — and
likewise when it is supplied as null or as the empty string — the outbound
header carries the fixed default constant (`"fina-api-test"` resp.
`"f-j1fvmjmj"`); when supplied as a non-empty string the caller's value is
used. -/
theorem fina_credential_defaults (i : FinaRequestInput) :
    FINA_API_KEY_DEFAULT = "fina-api-test" ∧
    FINA_PARTNER_ID_DEFAULT = "f-j1fvmjmj" ∧
    (i.api_key = none → resolveApiKey (parseFinaRequest i) = FINA_API_KEY_DEFAULT) ∧
    (i.partner_id = none → resolvePartnerId (parseFinaRequest i) = FINA_PARTNER_ID_DEFAULT) ∧
    (i.api_key = some none ∨ i.api_key = some (some "") →
      resolveApiKey (parseFinaRequest i) = FINA_API_KEY_DEFAULT) ∧
    (i.partner_id = some none ∨ i.partner_id = some (some "") →
      resolvePartnerId (parseFinaRequest i) = FINA_PARTNER_ID_DEFAULT) ∧
    (∀ s, i.api_key = some (some s) → s ≠ "" →
      resolveApiKey (parseFinaRequest i) = s) ∧
    (∀ s, i.partner_id = some (some s) → s ≠ "" →
      resolvePartnerId (parseFinaRequest i) = s) := by
  refine ⟨rfl, rfl, fun h => ?_, fun h => ?_, fun h => ?_, fun h => ?_,
    fun s hs hne => ?_, fun s hs hne => ?_⟩
  · simp [resolveApiKey, parseFinaRequest, pyOrStr, h]
  · simp [resolvePartnerId, parseFinaRequest, pyOrStr, h]
  · rcases h with h | h <;> simp [resolveApiKey, parseFinaRequest, pyOrStr, h]
  · rcases h with h | h <;> simp [resolvePartnerId, parseFinaRequest, pyOrStr, h]
  · simp [resolveApiKey, parseFinaRequest, pyOrStr, hs, hne]
  · simp [resolvePartnerId, parseFinaRequest, pyOrStr, hs, hne]

/-- Witness for C8 (amended): omitted credentials resolve to the default
constants, as do an explicit-null api key and an empty-string partner id; a
supplied non-empty api key is passed through. -/
theorem fina_credential_defaults_witness :
    resolveApiKey (parseFinaRequest ⟨[], none, none, none, none⟩) = FINA_API_KEY_DEFAULT ∧
    resolvePartnerId (parseFinaRequest ⟨[], none, none, none, none⟩) = FINA_PARTNER_ID_DEFAULT ∧
    resolveApiKey (parseFinaRequest ⟨[], none, none, some none, some (some "")⟩) =
      FINA_API_KEY_DEFAULT ∧
    resolvePartnerId (parseFinaRequest ⟨[], none, none, some none, some (some "")⟩) =
      FINA_PARTNER_ID_DEFAULT ∧
    resolveApiKey (parseFinaRequest ⟨[], none, none, some (some "k-123"), none⟩) = "k-123" :=
  ⟨(fina_credential_defaults ⟨[], none, none, none, none⟩).2.2.1 rfl,
   (fina_credential_defaults ⟨[], none, none, none, none⟩).2.2.2.1 rfl,
   (fina_credential_defaults ⟨[], none, none, some none, some (some "")⟩).2.2.2.2.1
      (Or.inl rfl),
   (fina_credential_defaults ⟨[], none, none, some none, some (some "")⟩).2.2.2.2.2.1
      (Or.inr rfl),
   (fina_credential_defaults ⟨[], none, none, some (some "k-123"), none⟩).2.2.2.2.2.2.1
      "k-123" rfl (by decide)⟩

/-- C9: supplying `api_key`, `partner_id` or `model` as the empty string
triggers the same fallback as omitting them (Python `or` is falsy-based),
and an explicit null `mapping` serializes as `"true"`. -/
theorem fina_falsy_fallbacks (i : FinaRequestInput) :
    (i.api_key = some (some "") → resolveApiKey (parseFinaRequest i) = FINA_API_KEY_DEFAULT) ∧
    (i.partner_id = some (some "") →
      resolvePartnerId (parseFinaRequest i) = FINA_PARTNER_ID_DEFAULT) ∧
    (i.model = some (some "") → resolveModel (parseFinaRequest i) = "v3") ∧
    (i.mapping = some none → resolveMapping (parseFinaRequest i) = "true") := by
  refine ⟨fun h => ?_, fun h => ?_, fun h => ?_, fun h => ?_⟩
  · simp [resolveApiKey, parseFinaRequest, pyOrStr, h]
  · simp [resolvePartnerId, parseFinaRequest, pyOrStr, h]
  · simp [resolveModel, parseFinaRequest, pyOrStr, h]
  · simp [resolveMapping, parseFinaRequest, h]

/-- Witness for C9 at a request supplying `""` for api key, partner id and
model, and an explicit null mapping: all four fallbacks fire. -/
theorem fina_falsy_fallbacks_witness :
    resolveApiKey (parseFinaRequest
      ⟨[], some (some ""), some none, some (some ""), some (some "")⟩) = FINA_API_KEY_DEFAULT ∧
    resolvePartnerId (parseFinaRequest
      ⟨[], some (some ""), some none, some (some ""), some (some "")⟩) = FINA_PARTNER_ID_DEFAULT ∧
    resolveModel (parseFinaRequest
      ⟨[], some (some ""), some none, some (some ""), some (some "")⟩) = "v3" ∧
    resolveMapping (parseFinaRequest
      ⟨[], some (some ""), some none, some (some ""), some (some "")⟩) = "true" :=
  ⟨(fina_falsy_fallbacks ⟨[], some (some ""), some none, some (some ""), some (some "")⟩).1 rfl,
   (fina_falsy_fallbacks ⟨[], some (some ""), some none, some (some ""), some (some "")⟩).2.1 rfl,
   (fina_falsy_fallbacks ⟨[], some (some ""), some none, some (some ""), some (some "")⟩).2.2.1 rfl,
   (fina_falsy_fallbacks ⟨[], some (some ""), some none, some (some ""), some (some "")⟩).2.2.2 rfl⟩

/-- C4: for every classification request, when the `type` field is one of
`"income"`, `"expense"`, `"expenses"` the text passed to the tokenizer is
the fixed template `Transaction: <trimmed text> - Type: <type>`; for any
other `type` value, `None` included, it is the trimmed input text
unchanged. -/
theorem classify_text_preparation (text : String) (ty : Option String) :
    (∀ t, ty = some t → (t = "income" ∨ t = "expense" ∨ t = "expenses") →
      prepareText ⟨text, ty⟩ = "Transaction: " ++ pyStrip text ++ " - Type: " ++ t) ∧
    ((∀ t, ty = some t → ¬(t = "income" ∨ t = "expense" ∨ t = "expenses")) →
      prepareText ⟨text, ty⟩ = pyStrip text) := by
  constructor
  · intro t ht hrec
    subst ht
    show (if t = "income" ∨ t = "expense" ∨ t = "expenses" then
            "Transaction: " ++ pyStrip text ++ " - Type: " ++ t else pyStrip text) = _
    rw [if_pos hrec]
  · intro hrec
    cases ty with
    | none => rfl
    | some t =>
        show (if t = "income" ∨ t = "expense" ∨ t = "expenses" then
                "Transaction: " ++ pyStrip text ++ " - Type: " ++ t else pyStrip text) = _
        rw [if_neg (hrec t rfl)]

/-- Witness for C4: a recognized type is templated over the trimmed text, an
unrecognized one leaves the trimmed text unchanged. -/
theorem classify_text_preparation_witness :
    prepareText ⟨" lunch at cafe ", some "income"⟩ =
      "Transaction: lunch at cafe - Type: income" ∧
    prepareText ⟨" lunch at cafe ", some "Food"⟩ = "lunch at cafe" := by
  constructor
  · have h := (classify_text_preparation " lunch at cafe " (some "income")).1 "income" rfl
      (Or.inl rfl)
    rw [h]
    rfl
  · have h := (classify_text_preparation " lunch at cafe " (some "Food")).2
      (fun t ht => by injection ht with h2; subst h2; decide)
    rw [h]
    rfl

/-- C5: for every logits row, the returned `label_id` attains the maximum of
the softmax probability distribution, the returned `score` is the
probability at that index and lies in [0, 1], and the probabilities over all
labels sum to exactly 1. -/
theorem classify_label_and_score {n : ℕ} (logits : Fin (n + 1) → ℝ) :
    (classifyLogits logits).2 = softmax logits (classifyLogits logits).1 ∧
    (∀ j, softmax logits j ≤ softmax logits (classifyLogits logits).1) ∧
    0 ≤ (classifyLogits logits).2 ∧
    (classifyLogits logits).2 ≤ 1 ∧
    ∑ i, softmax logits i = 1 :=
  ⟨rfl, fun j => argmaxFin_le (softmax logits) j,
   softmax_nonneg logits (argmaxFin (softmax logits)),
   softmax_le_one logits (argmaxFin (softmax logits)),
   softmax_sum_eq_one logits⟩

/-- C6 as stated is false on the code: a mapping that contains the predicted
id but maps it to the empty string does not yield that mapped value — the
`LABEL_<id>` fallback fires on the falsy looked-up value. -/
theorem label_name_counterexample :
    lookupId2Label (some [(0, some "")]) 0 = some "" ∧
    resolveLabelName (some [(0, some "")]) 0 = "LABEL_0" ∧
    ("LABEL_0" : String) ≠ "" := by
  decide

/-- C6 (amended): when the configured mapping contains the predicted id with
a truthy (non-empty, non-null) value, `label_name` is that value; when the
id is absent, no mapping is configured, or the stored value is falsy,
`label_name` is `LABEL_<id>`. -/
theorem label_name_resolution (id2label : Option (List (Nat × Option String)))
    (label_id : Nat) :
    (∀ s, lookupId2Label id2label label_id = some s → s ≠ "" →
      resolveLabelName id2label label_id = s) ∧
    ((lookupId2Label id2label label_id = none ∨
      lookupId2Label id2label label_id = some "") →
      resolveLabelName id2label label_id = "LABEL_" ++ toString label_id) := by
  constructor
  · intro s hs hne
    simp [resolveLabelName, hs, hne]
  · intro h
    rcases h with h | h <;> simp [resolveLabelName, h]

/-- Witness for C6 (amended): a mapped id resolves to its stored name; with
no mapping configured the synthesized `LABEL_7` is produced. -/
theorem label_name_resolution_witness :
    resolveLabelName (some [(3, some "Food")]) 3 = "Food" ∧
    resolveLabelName none 7 = "LABEL_7" :=
  ⟨(label_name_resolution (some [(3, some "Food")]) 3).1 "Food" rfl (by decide),
   (label_name_resolution none 7).2 (Or.inl rfl)⟩

/-- C10: when the mapping contains the predicted id but stores a falsy value
there (Python `None` or the empty string), `label_name` is synthesized as
`LABEL_<id>` even though the id is present. -/
theorem label_name_falsy_mapped (m : List (Nat × Option String)) (label_id : Nat)
    (h : m.lookup label_id = some none ∨ m.lookup label_id = some (some "")) :
    resolveLabelName (some m) label_id = "LABEL_" ++ toString label_id := by
  rcases h with h | h <;> simp [resolveLabelName, lookupId2Label, h]

/-- Witness for C10: ids stored with an empty-string and with a null value
both fall back to the synthesized name. -/
theorem label_name_falsy_mapped_witness :
    resolveLabelName (some [(2, some ""), (5, none)]) 2 = "LABEL_2" ∧
    resolveLabelName (some [(2, some ""), (5, none)]) 5 = "LABEL_5" :=
  ⟨label_name_falsy_mapped [(2, some ""), (5, none)] 2 (Or.inr rfl),
   label_name_falsy_mapped [(2, some ""), (5, none)] 5 (Or.inl rfl)⟩

end AiServer
